import Mathlib

/-!
Shallow embedding of two files of the repository:

* `python/paddle/distribution/geometric.py` — the `Geometric` distribution
  class.  Tensors are elementwise, so a scalar element is modelled by a real
  number; the batch shape is carried separately.  Python dynamic typing of the
  arguments is modelled by inductive types with one constructor per `isinstance`
  branch of the source, and a raised `TypeError` by `Except.error`.
* `test/ir/pir/cinn/sub_graphs/test_sub_graph_6.py` — the layer fixture whose
  forward pass is reshape, split and two transposes; the claims about it are
  about shapes, so the operations are embedded at the level of shapes.
-/

/-- The state of a constructed `Geometric` object: the stored `probs` value
(one element of the probability tensor) and the batch shape derived from the
shape of `probs`. -/
structure Geometric where
  probs : ℝ
  batch_shape : List Nat

/-- Argument kinds the constructor can receive: a `numbers.Real`, a
`paddle.Tensor`/`framework.Variable` (value together with its shape), or any
other Python object. -/
inductive ProbsArg where
  | realNum (x : ℝ)
  | tensor (x : ℝ) (shape : List Nat)
  | otherArg (desc : String)

/-- Embeds `Geometric.__init__`.  A real number is converted to a scalar tensor
(empty shape); the bound comparisons `lessthen_0` and `morethen_1` are computed,
as in the source, and then never used; any other argument kind raises
`TypeError`. -/
def Geometric.init (probs : ProbsArg) : Except String Geometric :=
  match probs with
  | ProbsArg.realNum x =>
      let all_ones : ℝ := 1
      let all_zeros : ℝ := 0
      let all_false : Bool := false
      let lessthen_0 : Prop := x ≤ all_zeros
      let morethen_1 : Prop := x > all_ones
      Except.ok { probs := x, batch_shape := [] }
  | ProbsArg.tensor x sh =>
      let all_ones : ℝ := 1
      let all_zeros : ℝ := 0
      let all_false : Bool := false
      let lessthen_0 : Prop := x ≤ all_zeros
      let morethen_1 : Prop := x > all_ones
      Except.ok { probs := x, batch_shape := sh }
  | ProbsArg.otherArg _ =>
      Except.error "TypeError: Expected type of probs is Number.Real|Tensor|framework.Variable"

/-- Argument kinds for the `k` parameter of `pmf`, `log_pmf` and `cdf`: a
`numbers.Integral`, a `numbers.Real` that is not Integral (a Python float), a
`framework.Variable` (scalar tensor holding an arbitrary real value), or any
other Python object. -/
inductive KArg where
  | intVal (k : ℤ)
  | floatVal (x : ℝ)
  | tensorVal (x : ℝ)
  | otherVal (desc : String)

/-- Whether the value held by a `k` argument is an integer. -/
def KArg.isIntegralValue : KArg → Prop
  | KArg.intVal _ => True
  | KArg.floatVal x => ∃ n : ℤ, x = (n : ℝ)
  | KArg.tensorVal x => ∃ n : ℤ, x = (n : ℝ)
  | KArg.otherVal _ => False

/-- Embeds `Geometric.pmf`: accepted for `numbers.Integral` and
`framework.Variable` arguments (a tensor exponent goes through the real power
of `paddle.pow`), rejected otherwise with `TypeError`. -/
noncomputable def Geometric.pmf (g : Geometric) (k : KArg) : Except String ℝ :=
  match k with
  | KArg.intVal n => Except.ok ((1 - g.probs) ^ n * g.probs)
  | KArg.tensorVal x => Except.ok ((1 - g.probs) ^ x * g.probs)
  | _ => Except.error "TypeError: Expected type of k is number.Real|framework.Variable"

/-- Embeds `Geometric.log_pmf`: the same type check, then `paddle.log` of
`self.pmf(k)`. -/
noncomputable def Geometric.log_pmf (g : Geometric) (k : KArg) : Except String ℝ :=
  match k with
  | KArg.intVal _ => (g.pmf k).map Real.log
  | KArg.tensorVal _ => (g.pmf k).map Real.log
  | _ => Except.error "TypeError: Expected type of k is number.Real|framework.Variable"

/-- Embeds `Geometric.cdf`: the same type check, then `1 - (1-p)^(k+1)`. -/
noncomputable def Geometric.cdf (g : Geometric) (k : KArg) : Except String ℝ :=
  match k with
  | KArg.intVal n => Except.ok (1 - (1 - g.probs) ^ (n + 1))
  | KArg.tensorVal x => Except.ok (1 - (1 - g.probs) ^ (x + 1))
  | _ => Except.error "TypeError: Expected type of k is number.Real|framework.Variable"

/-- Embeds the `Geometric.mean` property. -/
noncomputable def Geometric.mean (g : Geometric) : ℝ := 1 / g.probs - 1

/-- Embeds the `Geometric.variance` property (the `paddle.to_tensor` dtype
conversion is the identity on the value). -/
noncomputable def Geometric.variance (g : Geometric) : ℝ := (1 / g.probs - 1) / g.probs

/-- Embeds the `Geometric.stddev` property. -/
noncomputable def Geometric.stddev (g : Geometric) : ℝ := Real.sqrt g.variance

/-- Embeds `Geometric.entropy`. -/
noncomputable def Geometric.entropy (g : Geometric) : ℝ :=
  let x := (1 - g.probs) * Real.log (1 - g.probs)
  let y := g.probs * Real.log g.probs
  Neg.neg (x + y) / g.probs

/-- Argument kinds for `kl_divergence`: a `Geometric` instance or any other
Python object. -/
inductive OtherArg where
  | geom (g : Geometric)
  | notGeom (desc : String)

/-- Embeds `Geometric.kl_divergence`: accepted for a `Geometric` argument,
rejected otherwise with `TypeError`. -/
noncomputable def Geometric.kl_divergence (self : Geometric) (other : OtherArg) :
    Except String ℝ :=
  match other with
  | OtherArg.geom o =>
      let p := self.probs
      let q := o.probs
      Except.ok (p * Real.log (p / q) + (1 - p) * Real.log ((1 - p) / (1 - q)))
  | OtherArg.notGeom _ =>
      Except.error "TypeError: Exacted type of other is geometric.Geometric"

/-- The value `np.finfo(dtype=float32).tiny`, the smallest positive normal
float32, passed as the lower bound of the uniform draw in `rsample`. -/
noncomputable def float32_tiny : ℝ := 2 ^ (-(126 : ℤ))

/-- Embeds `paddle.log1p`. -/
noncomputable def log1p (x : ℝ) : ℝ := Real.log (1 + x)

/-- The elementwise transform applied by `rsample` to one uniform draw `u`:
`paddle.floor(paddle.log(u) / paddle.log1p(-p))`, a real number holding an
integer value. -/
noncomputable def rsampleElem (p u : ℝ) : ℝ :=
  ((⌊Real.log u / log1p (-p)⌋ : ℤ) : ℝ)

/-- Modelled from the spec: one draw of `paddle.uniform` with the given bounds,
every element lying in the open interval `(lo, hi)`. -/
structure UniformDraw (lo hi : ℝ) where
  val : List Nat → ℝ
  in_range : ∀ i, lo < val i ∧ val i < hi

/-- A tensor at the level of detail the sampling claims need: its shape, its
elements indexed by multi-index, and whether gradients are tracked for it. -/
structure STensor where
  shape : List Nat
  data : List Nat → ℝ
  grad_tracked : Bool

/-- Modelled from the spec: `Distribution._extend_shape` is not under the given
sources; per the spec the output shape is `sample_shape` followed by
`batch_shape` (the event shape of `Geometric` is empty). -/
def extend_shape (sample_shape batch_shape : List Nat) : List Nat :=
  sample_shape ++ batch_shape

/-- Embeds `Geometric.rsample`: extend the sample shape with the batch shape,
draw uniforms in `(float32_tiny, 1.0)`, apply the floored inverse-CDF
transform; the ambient gradient-tracking mode `grad_mode` is preserved
(differentiable path). -/
noncomputable def Geometric.rsample (g : Geometric) (grad_mode : Bool)
    (sample_shape : List Nat) (u : UniformDraw float32_tiny 1) : STensor :=
  { shape := extend_shape sample_shape g.batch_shape
  , data := fun i => rsampleElem g.probs (u.val i)
  , grad_tracked := grad_mode }

/-- Embeds `Geometric.sample`: calls `rsample` inside `paddle.no_grad()`, i.e.
with gradient tracking suspended regardless of the ambient mode. -/
noncomputable def Geometric.sample (g : Geometric) (grad_mode : Bool)
    (sample_shape : List Nat) (u : UniformDraw float32_tiny 1) : STensor :=
  g.rsample false sample_shape u

/-- Modelled from the spec: shape semantics of `paddle.tensor.manipulation.reshape`
(framework code not under the given sources) — positive target dimensions are
taken as given and a single `-1` dimension is inferred from the element
count. -/
def reshapeShape (s : List Nat) (ns : List Int) : Option (List Nat) :=
  let total := s.prod
  if ns.all (fun d => d = -1 || 0 < d) then
    if (ns.filter (fun d => d = -1)).length = 1 then
      let known := ((ns.filter (fun d => decide (0 < d))).map Int.toNat).prod
      if known ≠ 0 ∧ known ∣ total then
        some (ns.map (fun d => if d = -1 then total / known else d.toNat))
      else none
    else if (ns.map Int.toNat).prod = total then some (ns.map Int.toNat)
    else none
  else none

/-- Modelled from the spec: shape semantics of `paddle.tensor.manipulation.split`
(framework code not under the given sources) — the sizes must sum to the extent
of the split axis, and each part keeps the other dimensions. -/
def splitShape (s : List Nat) (sizes : List Nat) (axis : Nat) : Option (List (List Nat)) :=
  if h : axis < s.length then
    if sizes.sum = s.get ⟨axis, h⟩ then
      some (sizes.map (fun sz => s.set axis sz))
    else none
  else none

/-- Modelled from the spec: shape semantics of `paddle.tensor.linalg.transpose`
(framework code not under the given sources) — `perm` must be a permutation of
the axis indices and the output shape reads the input shape through it. -/
def transposeShape (s : List Nat) (perm : List Nat) : Option (List Nat) :=
  if perm.length = s.length ∧ (List.range s.length).all (fun i => perm.contains i) then
    some (perm.map (fun i => s.getD i 0))
  else none

/-- Embeds `LayerCase.forward` of `test_sub_graph_6.py` at the shape level:
reshape to `[10, 196, 8, -1]`, split on axis 3 into sizes `[16, 64]`, transpose
each part with perm `[0, 2, 1, 3]`. -/
def LayerCase.forward (var_0 : List Nat) : Option (List Nat × List Nat) := do
  let var_1 ← reshapeShape var_0 [10, 196, 8, -1]
  match ← splitShape var_1 [16, 64] 3 with
  | [v2, v3] => do
      let var_4 ← transposeShape v2 [0, 2, 1, 3]
      let var_5 ← transposeShape v3 [0, 2, 1, 3]
      pure (var_4, var_5)
  | _ => none

/-- Whether a `k` argument passes the `isinstance` check of `pmf`, `log_pmf`
and `cdf`: it is a `numbers.Integral` or a `framework.Variable`. -/
def KArg.isIntegralOrTensor : KArg → Bool
  | KArg.intVal _ => true
  | KArg.tensorVal _ => true
  | _ => false

/-- C1: for every Geometric distribution with parameter p and every integral k,
pmf(k) returns (1-p)^k * p, log_pmf(k) returns log(pmf(k)), and cdf(k) returns
1 - (1-p)^(k+1). -/
theorem geometric_pmf_log_pmf_cdf_formulas (p : ℝ) (sh : List Nat) (k : ℤ) :
    Geometric.pmf ⟨p, sh⟩ (KArg.intVal k) = Except.ok ((1 - p) ^ k * p) ∧
    Geometric.log_pmf ⟨p, sh⟩ (KArg.intVal k) = Except.ok (Real.log ((1 - p) ^ k * p)) ∧
    Geometric.cdf ⟨p, sh⟩ (KArg.intVal k) = Except.ok (1 - (1 - p) ^ (k + 1)) :=
  ⟨rfl, rfl, rfl⟩

/-- C5: for every real probs value, including 0 or 2, the constructor succeeds;
the stored probs equals the given value, converted to a scalar tensor (empty
batch shape) when a real number is passed; the bounds comparisons never affect
the result. -/
theorem geometric_init_accepts_all_reals (x : ℝ) (sh : List Nat) :
    Geometric.init (ProbsArg.realNum x) = Except.ok ⟨x, []⟩ ∧
    Geometric.init (ProbsArg.tensor x sh) = Except.ok ⟨x, sh⟩ :=
  ⟨rfl, rfl⟩

/-- C6: mean is 1/p - 1, variance is (1/p - 1)/p, stddev is the square root of
the variance, and entropy is -[(1-p)log(1-p) + p log p] / p. -/
theorem geometric_moments_entropy_formulas (p : ℝ) (sh : List Nat) :
    Geometric.mean ⟨p, sh⟩ = 1 / p - 1 ∧
    Geometric.variance ⟨p, sh⟩ = (1 / p - 1) / p ∧
    Geometric.stddev ⟨p, sh⟩ = Real.sqrt (Geometric.variance ⟨p, sh⟩) ∧
    Geometric.entropy ⟨p, sh⟩ = -((1 - p) * Real.log (1 - p) + p * Real.log p) / p :=
  ⟨rfl, rfl, rfl, rfl⟩

/-- C7: for every two Geometric distributions with parameters p and q,
kl_divergence returns p log(p/q) + (1-p) log((1-p)/(1-q)). -/
theorem geometric_kl_divergence_formula (p q : ℝ) (sh sh2 : List Nat) :
    Geometric.kl_divergence ⟨p, sh⟩ (OtherArg.geom ⟨q, sh2⟩) =
      Except.ok (p * Real.log (p / q) + (1 - p) * Real.log ((1 - p) / (1 - q))) :=
  rfl

/-- C10: pmf and cdf accept any integral k without a non-negativity check; for
every p, cdf(-1) returns exactly 0, and pmf evaluates (1-p)^k * p for every
integer k, negative ones included. -/
theorem geometric_pmf_cdf_negative_k (p : ℝ) (sh : List Nat) :
    Geometric.cdf ⟨p, sh⟩ (KArg.intVal (-1)) = Except.ok 0 ∧
    ∀ k : ℤ, Geometric.pmf ⟨p, sh⟩ (KArg.intVal k) = Except.ok ((1 - p) ^ k * p) := by
  constructor
  · show Except.ok (1 - (1 - p) ^ ((-1 : ℤ) + 1)) = Except.ok 0
    norm_num
  · intro k
    rfl

/-- C4 counterexample: a tensor-valued k holding the non-integral value 5/2 is
not an integral value, yet pmf returns a result instead of raising a type
error, so the error is not raised exactly when k is not an integral value. -/
theorem geometric_k_typecheck_counterexample :
    ¬ KArg.isIntegralValue (KArg.tensorVal (5 / 2)) ∧
    (Geometric.pmf ⟨1 / 2, []⟩ (KArg.tensorVal (5 / 2))).isOk = true := by
  refine ⟨?_, rfl⟩
  rintro ⟨n, hn⟩
  have h5 : (5 : ℝ) = 2 * (n : ℝ) := by
    rw [← hn]
    norm_num
  have h5z : (5 : ℤ) = 2 * n := by exact_mod_cast h5
  omega

/-- C4 amended: the constructor raises a type error exactly when probs is
neither a real number nor a tensor; pmf, log_pmf and cdf raise a type error
exactly when k is neither an Integral number nor a tensor (a tensor-valued k is
accepted without checking that its value is integral); kl_divergence raises a
type error exactly when other is not a Geometric instance; every error is
raised immediately with no result produced. -/
theorem geometric_error_raising_amended (x : ℝ) (sh : List Nat) (s : String)
    (g o : Geometric) :
    (Geometric.init (ProbsArg.realNum x)).isOk = true ∧
    (Geometric.init (ProbsArg.tensor x sh)).isOk = true ∧
    (Geometric.init (ProbsArg.otherArg s)).isOk = false ∧
    (∀ a : KArg,
      (g.pmf a).isOk = a.isIntegralOrTensor ∧
      (g.log_pmf a).isOk = a.isIntegralOrTensor ∧
      (g.cdf a).isOk = a.isIntegralOrTensor) ∧
    (g.kl_divergence (OtherArg.geom o)).isOk = true ∧
    (g.kl_divergence (OtherArg.notGeom s)).isOk = false := by
  refine ⟨rfl, rfl, rfl, ?_, rfl, rfl⟩
  intro a
  cases a <;> exact ⟨rfl, rfl, rfl⟩

/-- C3: rsample extends the sample shape with the batch shape, its draws lie in
(tiny, 1), each element is floor(log(u) / log1p(-p)); sample returns the same
values and shape but with gradient tracking suspended, while rsample preserves
the ambient gradient mode. -/
theorem geometric_sample_rsample_spec (g : Geometric) (grad_mode : Bool)
    (sample_shape : List Nat) (u : UniformDraw float32_tiny 1) :
    (g.rsample grad_mode sample_shape u).shape = sample_shape ++ g.batch_shape ∧
    (∀ i, float32_tiny < u.val i ∧ u.val i < 1) ∧
    (∀ i, (g.rsample grad_mode sample_shape u).data i =
      ((⌊Real.log (u.val i) / log1p (-g.probs)⌋ : ℤ) : ℝ)) ∧
    (g.sample grad_mode sample_shape u).data = (g.rsample grad_mode sample_shape u).data ∧
    (g.sample grad_mode sample_shape u).shape = (g.rsample grad_mode sample_shape u).shape ∧
    (g.sample grad_mode sample_shape u).grad_tracked = false ∧
    (g.rsample grad_mode sample_shape u).grad_tracked = grad_mode :=
  ⟨rfl, u.in_range, fun _ => rfl, rfl, rfl, rfl, rfl⟩

/-- C9: on an input of shape [10, 196, 640], the forward pass reshapes to
[10, 196, 8, 80], splits axis 3 into sizes [16, 64], transposes each part with
perm [0, 2, 1, 3], and returns shapes [10, 8, 196, 16] and [10, 8, 196, 64]. -/
theorem layer_forward_shapes :
    reshapeShape [10, 196, 640] [10, 196, 8, -1] = some [10, 196, 8, 80] ∧
    splitShape [10, 196, 8, 80] [16, 64] 3 = some [[10, 196, 8, 16], [10, 196, 8, 64]] ∧
    transposeShape [10, 196, 8, 16] [0, 2, 1, 3] = some [10, 8, 196, 16] ∧
    transposeShape [10, 196, 8, 64] [0, 2, 1, 3] = some [10, 8, 196, 64] ∧
    LayerCase.forward [10, 196, 640] = some ([10, 8, 196, 16], [10, 8, 196, 64]) := by
  refine ⟨?_, ?_, ?_, ?_, ?_⟩ <;> decide

/-- C2: for every p in the open interval (0,1) and every integer k ≥ 0, cdf(k)
equals the sum of pmf(i) for i from 0 to k. -/
theorem geometric_cdf_eq_sum_pmf (p : ℝ) (k : ℕ) (h0 : 0 < p) (h1 : p < 1) :
    Geometric.cdf ⟨p, []⟩ (KArg.intVal k) =
      Except.ok (∑ i ∈ Finset.range (k + 1),
        ((Geometric.pmf ⟨p, []⟩ (KArg.intVal i)).toOption.getD 0)) := by
  have hp0 : p ≠ 0 := ne_of_gt h0
  have hne : (1 - p : ℝ) ≠ 1 := fun h => hp0 (by linarith)
  have hpmf : ∀ i : ℕ, ∀ hi : i ∈ Finset.range (k + 1),
      ((Geometric.pmf ⟨p, []⟩ (KArg.intVal i)).toOption.getD 0) = (1 - p) ^ i * p := by
    intro i _
    show (1 - p) ^ (i : ℤ) * p = (1 - p) ^ i * p
    rw [zpow_natCast]
  rw [Finset.sum_congr rfl hpmf]
  show Except.ok (1 - (1 - p) ^ ((k : ℤ) + 1)) = _
  rw [← Finset.sum_mul, geom_sum_eq hne (k + 1)]
  congr 1
  have hz : ((1 - p) : ℝ) ^ ((k : ℤ) + 1) = (1 - p) ^ (k + 1) := by
    rw [show ((k : ℤ) + 1) = ((k + 1 : ℕ) : ℤ) by push_cast; ring, zpow_natCast]
  rw [hz]
  have hne0 : (1 : ℝ) - p - 1 ≠ 0 := fun h => hp0 (by linarith)
  rw [div_mul_eq_mul_div, eq_div_iff hne0]
  ring

/-- Witness for C2 at p = 1/2 and k = 2. -/
theorem geometric_cdf_eq_sum_pmf_witness :
    (0 : ℝ) < 1 / 2 ∧ (1 / 2 : ℝ) < 1 ∧
    Geometric.cdf ⟨1 / 2, []⟩ (KArg.intVal (2 : ℕ)) =
      Except.ok (∑ i ∈ Finset.range 3,
        ((Geometric.pmf ⟨1 / 2, []⟩ (KArg.intVal i)).toOption.getD 0)) :=
  ⟨by norm_num, by norm_num,
    geometric_cdf_eq_sum_pmf (1 / 2) 2 (by norm_num) (by norm_num)⟩

/-- C8: for every p in (0,1) and every uniform draw u in (tiny, 1), the
elementwise value floor(log(u) / log1p(-p)) produced by sample and rsample is a
non-negative integer represented as a real value. -/
theorem geometric_rsample_nonneg_integer (p u : ℝ) (h0 : 0 < p) (h1 : p < 1)
    (hu0 : float32_tiny < u) (hu1 : u < 1) :
    ∃ n : ℕ, rsampleElem p u = (n : ℝ) := by
  have htiny : (0 : ℝ) < float32_tiny := by
    unfold float32_tiny
    positivity
  have hu0p : 0 < u := lt_trans htiny hu0
  have hlu : Real.log u < 0 := Real.log_neg hu0p hu1
  have hlp : log1p (-p) < 0 := by
    unfold log1p
    rw [show (1 : ℝ) + -p = 1 - p by ring]
    exact Real.log_neg (by linarith) (by linarith)
  have hq : 0 < Real.log u / log1p (-p) := div_pos_of_neg_of_neg hlu hlp
  have hfloor : 0 ≤ ⌊Real.log u / log1p (-p)⌋ := Int.floor_nonneg.mpr (le_of_lt hq)
  refine ⟨(⌊Real.log u / log1p (-p)⌋).toNat, ?_⟩
  unfold rsampleElem
  norm_cast
  exact (Int.toNat_of_nonneg hfloor).symm

/-- Witness for C8 at p = 1/2 and u = 1/2. -/
theorem geometric_rsample_nonneg_integer_witness :
    (0 : ℝ) < 1 / 2 ∧ (1 / 2 : ℝ) < 1 ∧ float32_tiny < 1 / 2 ∧
    ∃ n : ℕ, rsampleElem (1 / 2) (1 / 2) = (n : ℝ) := by
  have htiny : float32_tiny < 1 / 2 := by
    unfold float32_tiny
    norm_num [zpow_neg]
  exact ⟨by norm_num, by norm_num, htiny,
    geometric_rsample_nonneg_integer (1 / 2) (1 / 2) (by norm_num) (by norm_num)
      htiny (by norm_num)⟩
